import Mathlib

/-!
Shallow embedding of the prediction retrieval and presentation module of the
Bitcoin price prediction frontend (src/frontend/src/pages/Home.tsx,
src/frontend/src/components/PriceChart.tsx, src/frontend/src/config.ts).

Modelling conventions: JS numbers carrying prices are modelled as rationals
(no arithmetic is ever performed on them; they are stored and formatted only);
locale-dependent formatting (Date rendering, toLocaleString) is abstracted as
an explicit function parameter; the asynchronous fetch is modelled by an
explicit outcome value fed to the completion handler, and the component
lifecycle by an event step function.
-/

/-- One forecast sample, from the Prediction interface in Home.tsx
(fields Date and Predicted_Price). -/
structure Prediction where
  Date : String
  Predicted_Price : ℚ
deriving DecidableEq

/-- The wire payload shape, from the PredictionResponse interface in Home.tsx:
success flag, point list, relative plot reference, optional message. -/
structure PredictionResponse where
  success : Bool
  predictions : List Prediction
  plot_url : String
  message : Option String
deriving DecidableEq

/-- Outcome of the awaited network interaction in fetchPredictions.
networkError models the fetch call itself rejecting; response carries the
HTTP status and the result of parsing the body as JSON, where none models
response.json() throwing on an unparsable body. Both of those throwing paths
land in the catch block of the source. -/
inductive FetchOutcome where
  | networkError
  | response (status : Nat) (body : Option PredictionResponse)
deriving DecidableEq

/-- The component state of Home.tsx: the four useState fields loading, error,
predictions, plotUrl, plus the currentPage cursor (useState at line 22). -/
structure HomeState where
  loading : Bool
  error : Option String
  predictions : List Prediction
  plotUrl : String
  currentPage : Int
deriving DecidableEq

/-- The initial component state: loading true, error null, predictions empty,
plotUrl empty, currentPage 0 (Home.tsx lines 18 to 22). -/
def initHomeState : HomeState :=
  { loading := true, error := none, predictions := [], plotUrl := "", currentPage := 0 }

/-- The JS expression m || fallback on an optional string m: undefined and the
empty string are falsy, any other string is returned as is. -/
def jsOrString (m : Option String) (fallback : String) : String :=
  match m with
  | some v => if v = "" then fallback else v
  | none => fallback

/-- The fixed request URL of the fetch call (Home.tsx line 28). -/
def requestUrl : String := "http://localhost:5000/api/predictions"

/-- The completion handler of fetchPredictions (Home.tsx lines 26 to 42)
as a function from the fetch outcome and the pre-resolution state to the
post-resolution state. The try branch reads only the parsed body: when the
success flag is true it stores the point list and prefixes the hardcoded
base http://localhost:5000 to plot_url; when false it stores the message or
the fallback text. The catch branch stores the generic connectivity message.
The finally branch always clears loading. The HTTP status is never consulted
by the source, which is why the status argument is unused. -/
def fetchPredictions (o : FetchOutcome) (s : HomeState) : HomeState :=
  let afterTry : HomeState :=
    match o with
    | .networkError => { s with error := some "Error connecting to the server" }
    | .response _ none => { s with error := some "Error connecting to the server" }
    | .response _ (some d) =>
        if d.success then
          { s with predictions := d.predictions,
                   plotUrl := "http://localhost:5000" ++ d.plot_url }
        else
          { s with error := some (jsOrString d.message "Failed to fetch predictions") }
  { afterTry with loading := false }

/-- A fetch outcome the source treats as a failure: the request rejecting,
an unparsable body, or a parsed body whose success flag is false. -/
def FetchOutcome.isFailure : FetchOutcome → Bool
  | .networkError => true
  | .response _ none => true
  | .response _ (some d) => !d.success

/-- The configuration object of config.ts: apiUrl selects the production host
when NODE_ENV is the string production and the development host otherwise. -/
structure Config where
  apiUrl : String
deriving DecidableEq

/-- The config value of config.ts as a function of the build mode NODE_ENV. -/
def config (node_env : String) : Config :=
  { apiUrl := if node_env = "production"
      then "https://btc-predictor-backend.onrender.com"
      else "http://localhost:10000" }

/-- A concrete successful payload used in concrete runs. -/
def okPayload : PredictionResponse :=
  { success := true
    predictions := [⟨"2024-01-01", 42000.5⟩]
    plot_url := "/plot.png"
    message := none }

/-- A concrete failure payload carrying no message. -/
def noMsgPayload : PredictionResponse :=
  { success := false, predictions := [], plot_url := "", message := none }

/-- A concrete failure payload carrying the message of Scenario B. -/
def notTrainedPayload : PredictionResponse :=
  { success := false, predictions := [], plot_url := "", message := some "model not trained" }

/-- The page size constant of Home.tsx line 23. The pagination functions below
take it as a parameter so that the spec properties quantified over every page
size are statable; the source instantiates it with 8. -/
def itemsPerPage : ℕ := 8

/-- Resolution of one relative index of JS Array.prototype.slice against a
list length: a negative index counts from the end clamped at 0, a nonnegative
index is clamped at the length. -/
def jsSliceBound (len : ℕ) (i : ℤ) : ℕ :=
  if i < 0 then ((len : ℤ) + i).toNat else min i.toNat len

/-- JS Array.prototype.slice with a start and an end argument: the elements
from the resolved start index up to but excluding the resolved end index. -/
def jsSlice {α : Type} (l : List α) (start stop : ℤ) : List α :=
  (l.drop (jsSliceBound l.length start)).take
    (jsSliceBound l.length stop - jsSliceBound l.length start)

/-- The totalPages computation of Home.tsx line 48: Math.ceil of the exact
quotient of the series length by the page size, the JS number division
modelled as rational division. -/
def totalPages (len pageSize : ℕ) : ℕ := ⌈(len : ℚ) / (pageSize : ℚ)⌉₊

/-- The getCurrentItems computation of Home.tsx lines 51 to 55:
slice(start, start + itemsPerPage) with start = currentPage * itemsPerPage,
under full JS slice semantics so that out-of-range and negative page indices
behave exactly as in the source. -/
def getCurrentItems (predictions : List Prediction) (currentPage : ℤ)
    (pageSize : ℕ) : List Prediction :=
  jsSlice predictions (currentPage * (pageSize : ℤ))
    (currentPage * (pageSize : ℤ) + (pageSize : ℤ))

/-- On a nonnegative index the JS slice bound is the minimum of the index and
the length. -/
lemma jsSliceBound_ofNat (len a : ℕ) : jsSliceBound len (a : ℤ) = min a len := by
  unfold jsSliceBound
  simp

/-- JS slice at nonnegative indices agrees with drop-then-take. -/
lemma jsSlice_nat {α : Type} (l : List α) (a b : ℕ) :
    jsSlice l (a : ℤ) (b : ℤ) = (l.drop a).take (b - a) := by
  unfold jsSlice
  rw [jsSliceBound_ofNat, jsSliceBound_ofNat]
  rcases le_or_lt a l.length with ha | ha
  · rw [min_eq_left ha]
    rcases le_or_lt b l.length with hb | hb
    · rw [min_eq_left hb]
    · rw [min_eq_right (le_of_lt hb)]
      have hlen : (l.drop a).length = l.length - a := List.length_drop a l
      rw [List.take_of_length_le (by omega), List.take_of_length_le (by omega)]
  · rw [min_eq_right (le_of_lt ha)]
    rw [List.drop_length, List.drop_of_length_le (le_of_lt ha)]
    simp

/-- The Math.ceil based page count agrees with natural ceiling division. -/
lemma totalPages_eq (L ps : ℕ) (hps : 0 < ps) :
    totalPages L ps = (L + ps - 1) / ps := by
  unfold totalPages
  set q : ℕ := (L + ps - 1) / ps with hq
  have hps' : (0 : ℚ) < (ps : ℚ) := by exact_mod_cast hps
  have hmod := Nat.div_add_mod (L + ps - 1) ps
  have hmodlt : (L + ps - 1) % ps < ps := Nat.mod_lt _ hps
  have hmul := Nat.div_mul_le_self (L + ps - 1) ps
  apply le_antisymm
  · rw [Nat.ceil_le, div_le_iff₀ hps']
    have key1 : L ≤ q * ps := by
      rcases Nat.eq_zero_or_pos L with hL | hL
      · simp [hL]
      · rw [hq]
        have := Nat.mul_comm ps ((L + ps - 1) / ps)
        omega
    exact_mod_cast key1
  · rcases Nat.eq_zero_or_pos q with h0 | h0
    · simp [h0]
    · have hL : 0 < L := by
        by_contra hL
        push_neg at hL
        interval_cases L
        have : (0 + ps - 1) / ps = 0 := Nat.div_eq_of_lt (by omega)
        omega
      have key2 : (q - 1) * ps < L := by
        have h1 : q * ps ≤ L + ps - 1 := hmul
        have h2 : (q - 1) * ps = q * ps - ps := by
          rw [Nat.sub_one_mul]
        omega
      have key2' : ((q - 1 : ℕ) : ℚ) < (L : ℚ) / (ps : ℚ) := by
        rw [lt_div_iff₀ hps']
        exact_mod_cast key2
      have := Nat.lt_ceil.mpr key2'
      omega

/-- The series length never exceeds pageCount times the page size. -/
lemma length_le_totalPages_mul (L ps : ℕ) (hps : 0 < ps) :
    L ≤ totalPages L ps * ps := by
  rw [totalPages_eq L ps hps]
  have hmod := Nat.div_add_mod (L + ps - 1) ps
  have hmodlt : (L + ps - 1) % ps < ps := Nat.mod_lt _ hps
  rcases Nat.eq_zero_or_pos L with hL | hL
  · simp [hL]
  · have := Nat.mul_comm ps ((L + ps - 1) / ps)
    omega

/-- Concatenating consecutive take-drop chunks of width ps recovers the list
once enough chunks are taken. -/
lemma chunks_concat {α : Type} (ps : ℕ) :
    ∀ (n : ℕ) (s : List α), s.length ≤ n * ps →
      ((List.range n).flatMap fun i => (s.drop (i * ps)).take ps) = s := by
  intro n
  induction n with
  | zero =>
    intro s hs
    simp at hs
    simp [hs]
  | succ n ih =>
    intro s hs
    rw [List.range_succ_eq_map]
    rw [List.flatMap_cons, List.flatMap_map]
    have h0 : (s.drop (0 * ps)).take ps = s.take ps := by simp
    rw [h0]
    have hfun : (fun i => (s.drop (Nat.succ i * ps)).take ps)
        = (fun i => ((s.drop ps).drop (i * ps)).take ps) := by
      funext i
      rw [Nat.succ_mul, List.drop_drop, Nat.add_comm (i * ps) ps]
    have hcomp : ((List.range n).flatMap fun i => (s.drop (Nat.succ i * ps)).take ps)
        = ((List.range n).flatMap fun i => ((s.drop ps).drop (i * ps)).take ps) := by
      rw [hfun]
    rw [hcomp]
    have hexp : (n + 1) * ps = n * ps + ps := by ring
    have hlen2 : (s.drop ps).length ≤ n * ps := by
      rw [List.length_drop]
      omega
    rw [ih (s.drop ps) hlen2]
    exact List.take_append_drop ps s

/-- At a natural page index the slice of getCurrentItems is the drop-take
chunk of width ps. -/
lemma getCurrentItems_nat (s : List Prediction) (i ps : ℕ) :
    getCurrentItems s (i : ℤ) ps = (s.drop (i * ps)).take ps := by
  unfold getCurrentItems
  have h1 : ((i : ℤ) * (ps : ℤ)) = ((i * ps : ℕ) : ℤ) := by push_cast; ring
  have h2 : ((i : ℤ) * (ps : ℤ) + (ps : ℤ)) = ((i * ps + ps : ℕ) : ℤ) := by push_cast; ring
  rw [h2, h1, jsSlice_nat]
  congr 1
  omega

/-- Above the page range the slice start resolves to the whole length, so the
slice is empty. -/
lemma getCurrentItems_above_range (s : List Prediction) (ps : ℕ) (i : ℤ)
    (hps : 0 < ps) (hi : (totalPages s.length ps : ℤ) ≤ i) :
    getCurrentItems s i ps = [] := by
  unfold getCurrentItems jsSlice
  have hi0 : (0 : ℤ) ≤ i := le_trans (by positivity) hi
  have hlen : (s.length : ℤ) ≤ i * (ps : ℤ) := by
    have h1 : s.length ≤ totalPages s.length ps * ps := length_le_totalPages_mul _ _ hps
    have h2 : ((totalPages s.length ps : ℕ) : ℤ) * (ps : ℤ) ≤ i * (ps : ℤ) :=
      mul_le_mul_of_nonneg_right hi (by positivity)
    have h1' : (s.length : ℤ) ≤ ((totalPages s.length ps : ℕ) : ℤ) * (ps : ℤ) := by
      exact_mod_cast h1
    exact le_trans h1' h2
  have hb : jsSliceBound s.length (i * (ps : ℤ)) = s.length := by
    unfold jsSliceBound
    have hnn : ¬ (i * (ps : ℤ) < 0) := not_lt.mpr (by positivity)
    rw [if_neg hnn]
    have : s.length ≤ (i * (ps : ℤ)).toNat := by
      rw [Int.le_toNat (by positivity)]
      exact hlen
    omega
  rw [hb, List.drop_length]
  simp

/-- On the empty series every page slice is empty. -/
lemma getCurrentItems_nil (i : ℤ) (ps : ℕ) : getCurrentItems [] i ps = [] := by
  simp [getCurrentItems, jsSlice]

/-- At page index minus one the slice end resolves to zero, so the slice is
empty rather than the clamped first page. -/
lemma getCurrentItems_neg_one (s : List Prediction) (ps : ℕ) :
    getCurrentItems s (-1) ps = [] := by
  unfold getCurrentItems jsSlice
  have hstop : (-1 : ℤ) * (ps : ℤ) + (ps : ℤ) = 0 := by ring
  rw [hstop]
  have h0 : jsSliceBound s.length 0 = 0 := by simp [jsSliceBound]
  rw [h0]
  simp

/-- A lifecycle event of one Home view instance: mounting, unmounting, or the
in-flight fetch resolving with a given outcome. -/
inductive ViewEvent where
  | mount
  | unmount
  | resolve (o : FetchOutcome)

/-- One view instance: whether it is currently mounted, together with its
component state. -/
structure ViewInstance where
  mounted : Bool
  st : HomeState
deriving DecidableEq

/-- One lifecycle step. Mounting installs the useState initial values and the
effect fires the fetch (Home.tsx lines 18 to 45); unmounting only clears the
mounted flag, because the useEffect returns no cleanup function; a fetch
resolution applies the completion handler unconditionally, because the handler
consults no cancellation or mounted flag anywhere in its body. -/
def viewStep (v : ViewInstance) : ViewEvent → ViewInstance
  | .mount => ⟨true, initHomeState⟩
  | .unmount => ⟨false, v.st⟩
  | .resolve o => ⟨v.mounted, fetchPredictions o v.st⟩

/-- Folding a list of lifecycle events over a view instance. -/
def runEvents (v : ViewInstance) (es : List ViewEvent) : ViewInstance :=
  es.foldl viewStep v

/-- The chart dataset of PriceChart.tsx lines 89 to 106: labels is the map of
the locale date rendering over the points, values is the single line dataset,
the map of Predicted_Price over the points. The locale rendering of a date
string is abstracted as the function argument fmtDate. -/
structure ChartData where
  labels : List String
  values : List ℚ
deriving DecidableEq

/-- The data constant computed by the PriceChart component from its
predictions prop. -/
def PriceChart.data (fmtDate : String → String) (predictions : List Prediction) :
    ChartData :=
  { labels := predictions.map fun p => fmtDate p.Date
    values := predictions.map fun p => p.Predicted_Price }

/-- One rendered row of the predictions table: the formatted date cell and the
formatted price cell. -/
structure TableRow where
  dateCell : String
  priceCell : String
deriving DecidableEq

/-- The table body rendered by Home.tsx lines 111 to 125: a map over the full
predictions field of the state. The locale date rendering and the dollar price
rendering are abstracted as the function arguments. Neither getCurrentItems
nor totalPages nor the currentPage field occurs in this JSX expression. -/
def renderedTableBody (fmtDate : String → String) (fmtPrice : ℚ → String)
    (s : HomeState) : List TableRow :=
  s.predictions.map fun p => TableRow.mk (fmtDate p.Date) (fmtPrice p.Predicted_Price)

/-- A concrete nine point series used by witnesses and counterexamples. -/
def sampleSeries : List Prediction :=
  [⟨"2024-01-01", 100⟩, ⟨"2024-01-02", 101⟩, ⟨"2024-01-03", 102⟩,
   ⟨"2024-01-04", 103⟩, ⟨"2024-01-05", 104⟩, ⟨"2024-01-06", 105⟩,
   ⟨"2024-01-07", 106⟩, ⟨"2024-01-08", 107⟩, ⟨"2024-01-09", 108⟩]

/-- C1: for every series and every pageSize above zero, the concatenation of
the visible slices of getCurrentItems for page indices 0 through
pageCount - 1 in index order equals the original series exactly, with no
point duplicated and none omitted. -/
theorem C1_pages_reconstruct_series (s : List Prediction) (ps : ℕ) (hps : 0 < ps) :
    ((List.range (totalPages s.length ps)).flatMap fun i =>
      getCurrentItems s (i : ℤ) ps) = s := by
  have hfun : (fun i : ℕ => getCurrentItems s (i : ℤ) ps)
      = fun i : ℕ => (s.drop (i * ps)).take ps := by
    funext i
    exact getCurrentItems_nat s i ps
  rw [hfun]
  exact chunks_concat ps (totalPages s.length ps) s
    (length_le_totalPages_mul s.length ps hps)

/-- Witness for C1 at the nine point series with page size two. -/
theorem C1_pages_reconstruct_series_witness :
    ((List.range (totalPages sampleSeries.length 2)).flatMap fun i =>
      getCurrentItems sampleSeries (i : ℤ) 2) = sampleSeries :=
  C1_pages_reconstruct_series sampleSeries 2 (by decide)

/-- C6: for every series length and every pageSize above zero the computed
totalPages, which the source obtains as Math.ceil of the quotient, equals the
natural ceiling division, and it is zero on the empty series. -/
theorem C6_totalPages_is_ceiling (L ps : ℕ) (hps : 0 < ps) :
    totalPages L ps = (L + ps - 1) / ps ∧ totalPages 0 ps = 0 := by
  constructor
  · exact totalPages_eq L ps hps
  · simp [totalPages]

/-- Witness for C6 at the Scenario D shape: seventeen points with page size
eight give three pages. -/
theorem C6_totalPages_is_ceiling_witness :
    totalPages 17 8 = (17 + 8 - 1) / 8 ∧ totalPages 0 8 = 0 :=
  C6_totalPages_is_ceiling 17 8 (by decide)

/-- C3 is false on the code: with the nine point series and page size eight
there are two pages, and requesting page index two, which is above the range,
yields the empty slice, not the slice of the last valid page index one, which
holds the ninth point. The source slices without clamping. -/
theorem C3_no_clamping_cex :
    totalPages sampleSeries.length 8 = 2 ∧
    getCurrentItems sampleSeries 2 8 = [] ∧
    getCurrentItems sampleSeries 1 8 = [⟨"2024-01-09", 108⟩] := by
  refine ⟨?_, ?_, ?_⟩
  · show totalPages 9 8 = 2
    rw [totalPages_eq 9 8 (by norm_num)]
  · decide
  · decide

/-- C3 amended: an out-of-range page index does not throw, but no clamping
occurs: a page index at or above pageCount yields the empty slice rather than
the last page slice, the page index minus one yields the empty slice rather
than the first page slice, and on the empty series every page index yields
the empty slice. -/
theorem C3_out_of_range_not_clamped (s : List Prediction) (ps : ℕ) (i : ℤ)
    (hps : 0 < ps) :
    ((totalPages s.length ps : ℤ) ≤ i → getCurrentItems s i ps = []) ∧
    getCurrentItems s (-1) ps = [] ∧
    getCurrentItems [] i ps = [] :=
  ⟨fun hi => getCurrentItems_above_range s ps i hps hi,
   getCurrentItems_neg_one s ps,
   getCurrentItems_nil i ps⟩

/-- Witness for the amended C3 at the nine point series, page size eight and
page index five. -/
theorem C3_out_of_range_not_clamped_witness :
    getCurrentItems sampleSeries 5 8 = [] ∧
    getCurrentItems sampleSeries (-1) 8 = [] ∧
    getCurrentItems [] 5 8 = [] := by
  have h := C3_out_of_range_not_clamped sampleSeries 8 5 (by norm_num)
  refine ⟨h.1 ?_, h.2.1, h.2.2⟩
  show ((totalPages 9 8 : ℕ) : ℤ) ≤ 5
  rw [totalPages_eq 9 8 (by norm_num)]
  norm_num

/-- The finally branch unconditionally clears the loading flag. -/
lemma fetchPredictions_loading (o : FetchOutcome) (s : HomeState) :
    (fetchPredictions o s).loading = false := by
  cases o with
  | networkError => rfl
  | response st body =>
    cases body with
    | none => rfl
    | some d =>
      cases hd : d.success <;> simp [fetchPredictions, hd]

/-- C2 is false on the code: mounting then unmounting leaves the instance
unmounted with loading still true, yet a later successful resolution still
mutates the state, clearing loading and writing predictions, because the
effect registers no cleanup and the handler checks no cancellation flag. -/
theorem C2_unmount_discard_cex :
    (runEvents ⟨false, initHomeState⟩ [.mount, .unmount]).mounted = false ∧
    (runEvents ⟨false, initHomeState⟩ [.mount, .unmount]).st.loading = true ∧
    (runEvents ⟨false, initHomeState⟩
      [.mount, .unmount, .resolve (.response 200 (some okPayload))]).mounted = false ∧
    (runEvents ⟨false, initHomeState⟩
      [.mount, .unmount, .resolve (.response 200 (some okPayload))]).st.loading = false ∧
    (runEvents ⟨false, initHomeState⟩
      [.mount, .unmount, .resolve (.response 200 (some okPayload))]).st.predictions
      = okPayload.predictions :=
  ⟨rfl, rfl, rfl, rfl, rfl⟩

/-- C2 amended: the result of a fetch resolving after unmount is not
discarded: the completion handler is applied to the state unchanged by the
missing guard, so loading is cleared and the outcome fields are written even
though the instance is no longer mounted. -/
theorem C2_resolve_after_unmount_mutates (v : ViewInstance) (o : FetchOutcome)
    (h : v.mounted = false) :
    (viewStep v (.resolve o)).mounted = false ∧
    (viewStep v (.resolve o)).st = fetchPredictions o v.st ∧
    (viewStep v (.resolve o)).st.loading = false := by
  refine ⟨?_, rfl, fetchPredictions_loading o v.st⟩
  show v.mounted = false
  exact h

/-- Witness for the amended C2 at a concrete unmounted instance and a
network error outcome. -/
theorem C2_resolve_after_unmount_mutates_witness :
    (viewStep ⟨false, initHomeState⟩ (.resolve .networkError)).mounted = false ∧
    (viewStep ⟨false, initHomeState⟩ (.resolve .networkError)).st
      = fetchPredictions .networkError initHomeState ∧
    (viewStep ⟨false, initHomeState⟩ (.resolve .networkError)).st.loading = false :=
  C2_resolve_after_unmount_mutates ⟨false, initHomeState⟩ .networkError rfl

/-- C4 is false on the code: a payload with success false and no message
yields the fallback text Failed to fetch predictions, not the generic
connectivity text Error connecting to the server, which only the catch branch
produces. -/
theorem C4_fallback_message_cex :
    (fetchPredictions (.response 200 (some noMsgPayload)) initHomeState).error
      = some "Failed to fetch predictions" ∧
    "Failed to fetch predictions" ≠ "Error connecting to the server" :=
  ⟨rfl, by decide⟩

/-- C4 amended: on a payload with success false the state carries the backend
message when present and nonempty and otherwise the fallback text Failed to
fetch predictions; in particular the model not trained payload of Scenario B
yields exactly the message model not trained. -/
theorem C4_server_reported_message (d : PredictionResponse) (s : HomeState)
    (st : ℕ) (hd : d.success = false) :
    (fetchPredictions (.response st (some d)) s).error
      = some (jsOrString d.message "Failed to fetch predictions") ∧
    (fetchPredictions (.response st (some notTrainedPayload)) s).error
      = some "model not trained" := by
  constructor
  · simp [fetchPredictions, hd]
  · rfl

/-- Witness for the amended C4 at the message free payload and the Scenario B
payload. -/
theorem C4_server_reported_message_witness :
    (fetchPredictions (.response 200 (some noMsgPayload)) initHomeState).error
      = some (jsOrString noMsgPayload.message "Failed to fetch predictions") ∧
    (fetchPredictions (.response 200 (some notTrainedPayload)) initHomeState).error
      = some "model not trained" :=
  C4_server_reported_message noMsgPayload initHomeState 200 rfl

/-- C5 is false on the code: the stored plot URL prefixes the hardcoded base
of Home.tsx, which agrees with neither the production nor the development
value of the config module, and the request URL likewise ignores config. -/
theorem C5_config_not_used_cex :
    (fetchPredictions (.response 200 (some okPayload)) initHomeState).plotUrl
      = "http://localhost:5000/plot.png" ∧
    (config "production").apiUrl ++ okPayload.plot_url
      ≠ "http://localhost:5000/plot.png" ∧
    (config "development").apiUrl ++ okPayload.plot_url
      ≠ "http://localhost:5000/plot.png" ∧
    requestUrl ≠ (config "production").apiUrl ++ "/api/predictions" ∧
    requestUrl ≠ (config "development").apiUrl ++ "/api/predictions" := by
  refine ⟨by decide, by decide, by decide, by decide, by decide⟩

/-- C5 amended: on a successful payload the chart source URL is formed by
prefixing the hardcoded base http://localhost:5000 to the relative plot_url,
the request itself is issued against that same hardcoded base, and the config
module value is not that base in any build mode, so it is not consumed by the
fetch routine. -/
theorem C5_hardcoded_base (d : PredictionResponse) (s : HomeState) (st : ℕ)
    (hd : d.success = true) :
    (fetchPredictions (.response st (some d)) s).plotUrl
      = "http://localhost:5000" ++ d.plot_url ∧
    requestUrl = "http://localhost:5000" ++ "/api/predictions" ∧
    (∀ mode : String, (config mode).apiUrl ≠ "http://localhost:5000") := by
  refine ⟨by simp [fetchPredictions, hd], by decide, ?_⟩
  intro mode
  by_cases h : mode = "production"
  · simp only [config, h, if_pos]
    decide
  · simp only [config, if_neg h]
    decide

/-- Witness for the amended C5 at the concrete successful payload. -/
theorem C5_hardcoded_base_witness :
    (fetchPredictions (.response 200 (some okPayload)) initHomeState).plotUrl
      = "http://localhost:5000" ++ okPayload.plot_url ∧
    requestUrl = "http://localhost:5000" ++ "/api/predictions" ∧
    (∀ mode : String, (config mode).apiUrl ≠ "http://localhost:5000") :=
  C5_hardcoded_base okPayload initHomeState 200 rfl

/-- C7: a network request that throws or rejects before any response lands in
the catch branch, leaving the Error state with the generic connectivity
message and loading cleared; and every failure outcome, being handled by a
total transition function, resolves into a state whose error field is set,
so no fault escapes into the view tree. -/
theorem C7_failure_resolves_to_error :
    (fetchPredictions .networkError initHomeState).error
      = some "Error connecting to the server" ∧
    (fetchPredictions .networkError initHomeState).loading = false ∧
    (∀ o : FetchOutcome, o.isFailure = true →
      ((fetchPredictions o initHomeState).error).isSome = true) := by
  refine ⟨rfl, rfl, ?_⟩
  intro o ho
  cases o with
  | networkError => rfl
  | response st body =>
    cases body with
    | none => rfl
    | some d =>
      have hd : d.success = false := by
        simpa [FetchOutcome.isFailure] using ho
      simp [fetchPredictions, hd]

/-- Witness for C7 at the unparsable body outcome. -/
theorem C7_failure_resolves_to_error_witness :
    (fetchPredictions .networkError initHomeState).error
      = some "Error connecting to the server" ∧
    ((fetchPredictions (.response 404 none) initHomeState).error).isSome = true :=
  ⟨C7_failure_resolves_to_error.1, C7_failure_resolves_to_error.2.2 (.response 404 none) rfl⟩

/-- C8 is false on the code: a response with status 500 whose body parses
with success true ends in the Ready view, with no error, loading cleared and
the point list stored, never in Error, because the source never inspects the
HTTP status. -/
theorem C8_status_ignored_cex :
    (fetchPredictions (.response 500 (some okPayload)) initHomeState).error = none ∧
    (fetchPredictions (.response 500 (some okPayload)) initHomeState).loading = false ∧
    (fetchPredictions (.response 500 (some okPayload)) initHomeState).predictions.length
      = 1 :=
  ⟨rfl, rfl, rfl⟩

/-- C8 amended: the HTTP status is never inspected: the resulting state is
the same for any two statuses with the same body, so error reporting depends
only on whether the body parses and on its success flag; in particular a
non-200 response whose body has success true ends in Ready, while a non-200
response with an unparsable body still ends in Error. -/
theorem C8_status_never_inspected (st1 st2 : ℕ) (body : Option PredictionResponse)
    (s : HomeState) :
    fetchPredictions (.response st1 body) s = fetchPredictions (.response st2 body) s := by
  cases body <;> rfl

/-- C9: for every series, including the empty one, and every locale date
rendering, the chart adapter produces exactly one label and one value per
point in series order: both sequences have the length of the series, the
label at each index is the rendering of the date of the point at that index,
and the value at each index is the price of the point at that index, with no
filtering or resampling. -/
theorem C9_toChartData_shape (fmt : String → String) (s : List Prediction) :
    (PriceChart.data fmt s).labels.length = s.length ∧
    (PriceChart.data fmt s).values.length = s.length ∧
    ∀ i : ℕ,
      (PriceChart.data fmt s).labels[i]? = (s[i]?).map (fun p => fmt p.Date) ∧
      (PriceChart.data fmt s).values[i]? = (s[i]?).map (fun p => p.Predicted_Price) := by
  refine ⟨by simp [PriceChart.data], by simp [PriceChart.data], ?_⟩
  intro i
  constructor <;> simp [PriceChart.data, List.getElem?_map]

/-- A concrete Ready state over the nine point series at page zero. -/
def readyStateA : HomeState :=
  { loading := false, error := none, predictions := sampleSeries,
    plotUrl := "http://localhost:5000/plot.png", currentPage := 0 }

/-- The same Ready state with the page cursor moved to seven. -/
def readyStateB : HomeState :=
  { readyStateA with currentPage := 7 }

/-- C10: the rendered table body maps over the entire predictions series, one
row per point in series order, and is therefore independent of the page
cursor: two states with the same series render the same body whatever their
currentPage, so the pagination outputs getCurrentItems and totalPages are
not consumed by the rendered output. -/
theorem C10_table_ignores_pagination (fd : String → String) (fp : ℚ → String)
    (s1 s2 : HomeState) (h : s1.predictions = s2.predictions) :
    renderedTableBody fd fp s1 = renderedTableBody fd fp s2 ∧
    (renderedTableBody fd fp s1).length = s1.predictions.length ∧
    ∀ i : ℕ, (renderedTableBody fd fp s1)[i]?
      = (s1.predictions[i]?).map fun p => TableRow.mk (fd p.Date) (fp p.Predicted_Price) := by
  refine ⟨by simp [renderedTableBody, h], by simp [renderedTableBody], ?_⟩
  intro i
  simp [renderedTableBody, List.getElem?_map]

/-- Witness for C10 at two Ready states sharing the series but with page
cursors zero and seven. -/
theorem C10_table_ignores_pagination_witness :
    renderedTableBody id (fun _ => "p") readyStateA = renderedTableBody id (fun _ => "p") readyStateB ∧
    (renderedTableBody id (fun _ => "p") readyStateA).length = readyStateA.predictions.length ∧
    ∀ i : ℕ, (renderedTableBody id (fun _ => "p") readyStateA)[i]?
      = (readyStateA.predictions[i]?).map fun p => TableRow.mk (id p.Date) ((fun _ => "p") p.Predicted_Price) :=
  C10_table_ignores_pagination id (fun _ => "p") readyStateA readyStateB rfl
